import Mathlib

/-!
Shallow embedding of the server_status repository (bot.py, config.py,
constants.py): a Discord bot that starts/stops an AWS EC2 instance hosting a
Minecraft server, with an idle monitor that auto-stops the instance after a
run of empty observations.

Modelling conventions:
* The mutable fields of the `MinecraftServerBot` class become a state record;
  each operation takes the state and an `Env` of external observations made
  during the call (EC2 describe result, Minecraft status probe result,
  whether the provider start/stop calls succeed) and returns the new state
  together with a trace of externally visible effects.
* The boto3 EC2 client (`self._ec2`) is modelled by the parameters it is
  constructed with (region and credentials); `None` in the source is `none`.
* Exceptions in probe calls are modelled by `none` observations, matching the
  source's `except` branches which translate them into sentinel results.
* The `wait` field (a Python float used only for sleep durations and log
  text) is modelled as a Nat; no claim depends on elapsed real time.
-/

namespace ServerStatus

/-- constants.py: number of consecutive 5-minute empty intervals before an
auto-stop (`CONSECUTIVE_EMPTY_LIMIT = 3`). -/
def CONSECUTIVE_EMPTY_LIMIT : Nat := 3

/-- config.py `ServerCfg`: configuration of one server profile. -/
structure ServerCfg where
  name : String
  instance_id : String
  region : String
  ip : String
  wait : Nat
deriving DecidableEq, Repr

/-- config.py `BotCfg`: token, AWS credentials and the ordered profile dict
(`dict[str, ServerCfg]`, insertion order preserved, modelled as an
association list). -/
structure BotCfg where
  token : String
  aws_key : String
  aws_secret : String
  servers : List (String × ServerCfg)
deriving DecidableEq, Repr

/-- The boto3 EC2 client, modelled by its construction parameters
(bot.py `ec2` property: `boto3.client("ec2", region_name=..., key, secret)`). -/
structure Ec2Client where
  region : String
  aws_key : String
  aws_secret : String
deriving DecidableEq, Repr

/-- The mutable state of the `MinecraftServerBot` class (bot.py `__init__`):
`self.current`, `self._ec2`, `self._consecutive_empty`,
`self._last_command_chan` (a channel id), `self._last_ec2_state`. -/
structure MinecraftServerBot where
  cfg : BotCfg
  current : ServerCfg
  ec2Client : Option Ec2Client
  consecutiveEmpty : Nat
  lastCommandChan : Option Nat
  lastEc2State : String
deriving DecidableEq, Repr

/-- The content of a status embed built by `status_embed` (presentation
details such as version, max players and thumbnail are not modelled; the
decision-relevant data is). -/
inductive StatusView where
  | online (ip : String) (onlineCount : Nat) (names : List String)
  | runningUnreachable (name ip : String)
  | startingView (name : String)
  | stoppingView (name : String)
  | offline (name : String)
  | awsError (name : String)
  | unknownState (name st : String)
deriving DecidableEq, Repr

/-- A human-visible message sent via `self.say` (one constructor per embed
text in the source, carrying the data interpolated into the text). -/
inductive Msg where
  | statusReport (v : StatusView)
  | alreadyRunning (name : String)
  | busy (name st : String)
  | startingServer (name : String)
  | instanceUpWaitingApp (name : String)
  | startedWithStatus (name : String) (v : StatusView)
  | startedButUnreachable (name : String)
  | startFailed (name : String)
  | notRunning (name st : String)
  | playersOnline (name : String) (count : Nat)
  | stoppingServer (name : String) (auto : Bool)
  | stoppedDone (name : String)
  | stopFailed (name : String)
  | cannotMountWhileRunning (name : String)
  | invalidServer (name : String) (valid : List String)
  | alreadyActive (name : String)
  | mounted (name : String)
deriving DecidableEq, Repr

/-- Externally visible effects of one operation, in order. The `bound`
argument of the waiter effects models the `WaiterConfig` argument of
`get_waiter(...).wait`: the source passes none at both call sites
(bot.py lines 150-153 and 209-212), so the waits carry no explicit
attempt/time bound. -/
inductive Effect where
  | describeInstances (instanceId : String)
  | startInstances (instanceId : String)
  | stopInstances (instanceId : String)
  | waitForRunning (instanceId : String) (bound : Option Nat)
  | waitForStopped (instanceId : String) (bound : Option Nat)
  | mcProbe (ip : String)
  | notify (chan : Nat) (m : Msg)
deriving DecidableEq, Repr

/-- External observations made during one operation: the EC2 describe result
(`none` = the describe call raised, source returns "error"), the Minecraft
status probe result (`some (online, sampleNames)` = reachable, `none` =
unreachable/0/[]), whether provider start/stop plus their waiters raise, and,
for `cmd_start`'s post-start polling loop, which poll iterations find the
Minecraft server reachable. -/
structure Env where
  ec2Observed : Option String
  mcObserved : Option (Nat × List String)
  startOk : Bool
  stopOk : Bool
  mcUpAt : Nat → Bool

/-- Ordered-dict lookup `self.cfg.servers[name]` guarded by
`name in self.cfg.servers`. -/
def lookupServer (servers : List (String × ServerCfg)) (name : String) :
    Option ServerCfg :=
  (servers.find? (fun p => p.1 = name)).map (fun p => p.2)

/-- The rendered list of valid server names in the `cmd_mount` error message:
`", ".join(f"`{s}`" for s in self.cfg.servers)`. -/
def validServersText (names : List String) : String :=
  String.intercalate ", " (names.map (fun n => "`" ++ n ++ "`"))

/-- The client a fresh `boto3.client` call would build for the current
profile (bot.py `ec2` property body). -/
def freshClient (s : MinecraftServerBot) : Ec2Client :=
  { region := s.current.region, aws_key := s.cfg.aws_key,
    aws_secret := s.cfg.aws_secret }

/-- bot.py `ec2` property: lazily initializes `self._ec2` for the current
profile's region and returns it. -/
def getEc2 (s : MinecraftServerBot) : MinecraftServerBot × Ec2Client :=
  match s.ec2Client with
  | some c => (s, c)
  | none => ({ s with ec2Client := some (freshClient s) }, freshClient s)

/-- bot.py `ec2_state` (lines 59-70): one `describe_instances` provider call;
on success caches and returns the observed state name, on any exception
returns the sentinel "error" without touching the cache. -/
def ec2_state (env : Env) (s : MinecraftServerBot) :
    MinecraftServerBot × String × List Effect :=
  let p := getEc2 s
  let s := p.1
  match env.ec2Observed with
  | some st =>
      ({ s with lastEc2State := st }, st,
       [.describeInstances s.current.instance_id])
  | none => (s, "error", [.describeInstances s.current.instance_id])

/-- bot.py `mc_status` (lines 72-84): bounded status query against the game
server; returns `(True, online, sampleNames)` on success and
`(False, 0, [])` on any failure, never raising. -/
def mc_status (env : Env) (s : MinecraftServerBot) :
    (Bool × Nat × List String) × List Effect :=
  match env.mcObserved with
  | some (online, names) => ((true, online, names), [.mcProbe s.current.ip])
  | none => ((false, 0, []), [.mcProbe s.current.ip])

/-- bot.py `status_embed` (lines 92-125): composes the EC2 state probe with,
when running, the Minecraft status probe, into a presentation summary. -/
def status_embed (env : Env) (s : MinecraftServerBot) :
    MinecraftServerBot × StatusView × List Effect :=
  let q := ec2_state env s
  let s := q.1
  let st := q.2.1
  let t1 := q.2.2
  if st = "running" then
    let r := mc_status env s
    let isUp := r.1.1
    let online := r.1.2.1
    let names := r.1.2.2
    let t2 := r.2
    if isUp then
      (s, .online s.current.ip online names, t1 ++ t2)
    else
      (s, .runningUnreachable s.current.name s.current.ip, t1 ++ t2)
  else if st = "pending" then
    (s, .startingView s.current.name, t1)
  else if st = "stopping" ∨ st = "shutting-down" then
    (s, .stoppingView s.current.name, t1)
  else if st = "stopped" then
    (s, .offline s.current.name, t1)
  else if st = "error" then
    (s, .awsError s.current.name, t1)
  else
    (s, .unknownState s.current.name st, t1)

/-- bot.py `cmd_status` (lines 129-131): sends the status embed. -/
def cmd_status (env : Env) (s : MinecraftServerBot) (chan : Nat) :
    MinecraftServerBot × List Effect :=
  let q := status_embed env s
  (q.1, q.2.2 ++ [.notify chan (.statusReport q.2.1)])

/-- First index `i` in `[start, start+fuel)` with `up i = true`: the
post-start polling loop of `cmd_start` (lines 160-169), which breaks out as
soon as `mc_status` reports the server reachable. -/
def firstUpWithin (up : Nat → Bool) : Nat → Nat → Option Nat
  | 0, _ => none
  | fuel + 1, i => if up i then some i else firstUpWithin up fuel (i + 1)

/-- bot.py `cmd_start` (lines 133-178). Precondition checks on the observed
EC2 state; on the go path remembers the channel, issues `start_instances`,
waits (no `WaiterConfig`, hence bound `none`) for the running state, then
polls `mc_status` up to 120 times. -/
def cmd_start (env : Env) (s : MinecraftServerBot) (chan : Nat) :
    MinecraftServerBot × List Effect :=
  let q := ec2_state env s
  let s := q.1
  let st := q.2.1
  let t1 := q.2.2
  if st = "running" then
    (s, t1 ++ [.notify chan (.alreadyRunning s.current.name)])
  else if st = "pending" ∨ st = "stopping" ∨ st = "shutting-down" then
    (s, t1 ++ [.notify chan (.busy s.current.name st)])
  else
    let s := { s with lastCommandChan := some chan }
    let t2 : List Effect := [.notify chan (.startingServer s.current.name)]
    if env.startOk then
      let t3 : List Effect :=
        [.startInstances s.current.instance_id,
         .waitForRunning s.current.instance_id none,
         .notify chan (.instanceUpWaitingApp s.current.name)]
      match firstUpWithin env.mcUpAt 120 0 with
      | some k =>
          let polls := (List.range (k + 1)).map
            (fun _ => Effect.mcProbe s.current.ip)
          let r := status_embed env s
          (r.1, t1 ++ t2 ++ t3 ++ polls ++ r.2.2 ++
            [.notify chan (.startedWithStatus s.current.name r.2.1)])
      | none =>
          let polls := (List.range 120).map
            (fun _ => Effect.mcProbe s.current.ip)
          (s, t1 ++ t2 ++ t3 ++ polls ++
            [.notify chan (.startedButUnreachable s.current.name)])
    else
      (s, t1 ++ t2 ++
        [.startInstances s.current.instance_id,
         .waitForRunning s.current.instance_id none,
         .notify chan (.startFailed s.current.name)])

/-- bot.py `cmd_stop` (lines 180-219). `chan = none` is the auto-stop path,
which falls back to `self._last_command_chan` and returns after a log entry
when neither exists. The players-online guard applies only when not `auto`.
On the stop path issues `stop_instances`, waits (no `WaiterConfig`, bound
`none`) for the stopped state, and resets `_consecutive_empty` on success. -/
def cmd_stop (env : Env) (s : MinecraftServerBot) (chan : Option Nat)
    (auto : Bool) : MinecraftServerBot × List Effect :=
  let effChan := match chan with
    | some c => some c
    | none => s.lastCommandChan
  match effChan with
  | none => (s, [])
  | some c =>
    let q := ec2_state env s
    let s := q.1
    let st := q.2.1
    let t1 := q.2.2
    if st ≠ "running" then
      (s, t1 ++ [.notify c (.notRunning s.current.name st)])
    else
      let r := mc_status env s
      let isUp := r.1.1
      let online := r.1.2.1
      let t2 := r.2
      if ¬auto ∧ isUp ∧ online > 0 then
        (s, t1 ++ t2 ++ [.notify c (.playersOnline s.current.name online)])
      else
        let t3 : List Effect := [.notify c (.stoppingServer s.current.name auto)]
        if env.stopOk then
          ({ s with consecutiveEmpty := 0 },
           t1 ++ t2 ++ t3 ++
             [.stopInstances s.current.instance_id,
              .waitForStopped s.current.instance_id none,
              .notify c (.stoppedDone s.current.name)])
        else
          (s, t1 ++ t2 ++ t3 ++
            [.stopInstances s.current.instance_id,
             .waitForStopped s.current.instance_id none,
             .notify c (.stopFailed s.current.name)])

/-- bot.py `cmd_mount` (lines 226-252). Rejects while the observed state is
running, rejects names absent from the config (listing the valid names),
no-ops on the already-active name, and otherwise swaps the profile,
invalidates the client and cached state, resets the idle counter and shows
the new server's status. -/
def cmd_mount (env : Env) (s : MinecraftServerBot) (chan : Nat)
    (server_name : String) : MinecraftServerBot × List Effect :=
  let q := ec2_state env s
  let s := q.1
  let st := q.2.1
  let t1 := q.2.2
  if st = "running" then
    (s, t1 ++ [.notify chan (.cannotMountWhileRunning s.current.name)])
  else
    match lookupServer s.cfg.servers server_name with
    | none =>
        (s, t1 ++ [.notify chan
          (.invalidServer server_name (s.cfg.servers.map Prod.fst))])
    | some target =>
        if server_name = s.current.name then
          (s, t1 ++ [.notify chan (.alreadyActive server_name)])
        else
          let s := { s with current := target, ec2Client := none,
                            lastEc2State := "", consecutiveEmpty := 0 }
          let t2 : List Effect := [.notify chan (.mounted server_name)]
          let r := cmd_status env s chan
          (r.1, t1 ++ t2 ++ r.2)

/-- bot.py `monitor_players` (lines 338-366): one 5-minute tick of the idle
monitor. Not running resets the counter; running+reachable+empty increments
it and triggers `cmd_stop(None, auto=True)` at the limit; players online or
unreachable resets it. -/
def monitor_players (env : Env) (s : MinecraftServerBot) :
    MinecraftServerBot × List Effect :=
  let q := ec2_state env s
  let s := q.1
  let st := q.2.1
  let t1 := q.2.2
  if st ≠ "running" then
    (if s.consecutiveEmpty > 0 then { s with consecutiveEmpty := 0 } else s, t1)
  else
    let r := mc_status env s
    let isUp := r.1.1
    let online := r.1.2.1
    let t2 := r.2
    if isUp ∧ online = 0 then
      let s := { s with consecutiveEmpty := s.consecutiveEmpty + 1 }
      if s.consecutiveEmpty ≥ CONSECUTIVE_EMPTY_LIMIT then
        let p := cmd_stop env s none true
        (p.1, t1 ++ t2 ++ p.2)
      else
        (s, t1 ++ t2)
    else
      (if s.consecutiveEmpty > 0 then { s with consecutiveEmpty := 0 } else s,
       t1 ++ t2)

/-- A run of `n` consecutive monitor ticks under a fixed external
environment (the world does not change between the ticks). -/
def runTicks (env : Env) (s : MinecraftServerBot) : Nat →
    MinecraftServerBot × List Effect
  | 0 => (s, [])
  | n + 1 =>
      let p := monitor_players env s
      let q := runTicks env p.1 n
      (q.1, p.2 ++ q.2)

/-- Number of `stop_instances` provider calls in a trace. -/
def countStops (t : List Effect) : Nat :=
  (t.filter (fun e => match e with
    | .stopInstances _ => true
    | _ => false)).length

/-- Number of provider (AWS) calls of any kind in a trace: describe, start,
stop and the two waiters. -/
def countProviderCalls (t : List Effect) : Nat :=
  (t.filter (fun e => match e with
    | .describeInstances _ => true
    | .startInstances _ => true
    | .stopInstances _ => true
    | .waitForRunning _ _ => true
    | .waitForStopped _ _ => true
    | _ => false)).length

/-- The EC2 state string an operation observes, as `ec2_state` computes it:
the describe result, or the sentinel "error" when the call raises. -/
def obsState (env : Env) : String :=
  match env.ec2Observed with
  | some st => st
  | none => "error"

/-! ### Concrete fixtures (the spec's sample registry of two profiles) -/

/-- Profile alpha of the sample registry. -/
def alphaCfg : ServerCfg :=
  { name := "alpha", instance_id := "i-alpha", region := "us-east-1",
    ip := "alpha.example.com", wait := 1 }

/-- Profile beta of the sample registry. -/
def betaCfg : ServerCfg :=
  { name := "beta", instance_id := "i-beta", region := "us-east-2",
    ip := "beta.example.com", wait := 1 }

/-- Sample configuration with profiles alpha and beta, in that order. -/
def sampleCfg : BotCfg :=
  { token := "tok", aws_key := "AKIA", aws_secret := "sec",
    servers := [("alpha", alphaCfg), ("beta", betaCfg)] }

/-- A bot as `__init__` leaves it (first profile active, no client yet,
counter 0, empty cached state) after one command has recorded channel 42. -/
def sampleBot : MinecraftServerBot :=
  { cfg := sampleCfg, current := alphaCfg, ec2Client := none,
    consecutiveEmpty := 0, lastCommandChan := some 42, lastEc2State := "" }

/-- A bot exactly as `__init__` leaves it: no command channel ever seen. -/
def freshBot : MinecraftServerBot :=
  { sampleBot with lastCommandChan := none }

/-- World: instance running, Minecraft reachable with zero players. -/
def envRunningIdle : Env :=
  { ec2Observed := some "running", mcObserved := some (0, []),
    startOk := true, stopOk := true, mcUpAt := fun _ => false }

/-- World: instance running, Minecraft reachable with two players online. -/
def envRunningPlayers : Env :=
  { ec2Observed := some "running", mcObserved := some (2, ["alice", "bob"]),
    startOk := true, stopOk := true, mcUpAt := fun _ => false }

/-- World: instance running but the Minecraft probe times out (unreachable). -/
def envRunningUnreachable : Env :=
  { ec2Observed := some "running", mcObserved := none,
    startOk := true, stopOk := true, mcUpAt := fun _ => false }

/-- World: instance stopped; the Minecraft probe is unreachable and stays so
through the post-start polling budget. -/
def envStopped : Env :=
  { ec2Observed := some "stopped", mcObserved := none,
    startOk := true, stopOk := true, mcUpAt := fun _ => false }

/-! ### Helper lemmas about the embedded operations -/

/-- Uniform description of the lazy client accessor: the state afterwards
holds a client (the previous one, or a fresh one for the current profile). -/
theorem getEc2_eq (s : MinecraftServerBot) :
    getEc2 s = ({ s with ec2Client := some (s.ec2Client.getD (freshClient s)) },
                s.ec2Client.getD (freshClient s)) := by
  cases s with
  | mk cfg current ec2Client consecutiveEmpty lastCommandChan lastEc2State =>
      cases ec2Client <;> simp [getEc2]

/-- The state `status_embed` returns is exactly the state `ec2_state` leaves:
the liveness probe and the presentation branches do not touch it. -/
theorem status_embed_fst (env : Env) (s : MinecraftServerBot) :
    (status_embed env s).1 = (ec2_state env s).1 := by
  unfold status_embed
  dsimp only
  repeat' split
  all_goals rfl

/-- The reset pattern of `monitor_players` (`if counter > 0: counter = 0`)
always leaves the counter at zero. -/
theorem reset_branch_zero (s : MinecraftServerBot) :
    (if s.consecutiveEmpty > 0 then { s with consecutiveEmpty := 0 }
     else s).consecutiveEmpty = 0 := by
  split
  · rfl
  · omega

/-! ### Claim theorems -/

/-- Claim C10: an idle-monitor-triggered stop with no notification channel
ever recorded returns immediately: no provider calls, no state or liveness
probes, the instance is not stopped and the idle streak is unchanged. -/
theorem c10_auto_stop_without_channel (env : Env) (s : MinecraftServerBot)
    (h : s.lastCommandChan = none) :
    cmd_stop env s none true = (s, []) := by
  simp [cmd_stop, h]

/-- Witness for C10 at the fresh bot in an idle running world. -/
theorem c10_auto_stop_without_channel_witness :
    freshBot.lastCommandChan = none ∧
    cmd_stop envRunningIdle freshBot none true = (freshBot, []) :=
  ⟨rfl, c10_auto_stop_without_channel envRunningIdle freshBot rfl⟩

/-- Claim C1: a manual (non-forced) stop while running, reachable and with
players online signals PlayersOnline, issues no provider stop call, and
leaves the active profile and the idle streak unchanged. -/
theorem c1_stop_guarded_by_players (env : Env) (s : MinecraftServerBot)
    (c online : Nat) (names : List String)
    (hS : env.ec2Observed = some "running")
    (hM : env.mcObserved = some (online, names))
    (hO : 0 < online) :
    (cmd_stop env s (some c) false).1.current = s.current ∧
    (cmd_stop env s (some c) false).1.consecutiveEmpty = s.consecutiveEmpty ∧
    countStops (cmd_stop env s (some c) false).2 = 0 ∧
    Effect.notify c (.playersOnline s.current.name online) ∈
      (cmd_stop env s (some c) false).2 := by
  simp [cmd_stop, ec2_state, getEc2_eq, mc_status, countStops, hS, hM, hO]

/-- Witness for C1: two players online on the sample bot. -/
theorem c1_stop_guarded_by_players_witness :
    envRunningPlayers.ec2Observed = some "running" ∧
    envRunningPlayers.mcObserved = some (2, ["alice", "bob"]) ∧
    0 < 2 ∧
    ((cmd_stop envRunningPlayers sampleBot (some 7) false).1.current
        = sampleBot.current ∧
     (cmd_stop envRunningPlayers sampleBot (some 7) false).1.consecutiveEmpty
        = sampleBot.consecutiveEmpty ∧
     countStops (cmd_stop envRunningPlayers sampleBot (some 7) false).2 = 0 ∧
     Effect.notify 7 (.playersOnline sampleBot.current.name 2) ∈
       (cmd_stop envRunningPlayers sampleBot (some 7) false).2) :=
  ⟨rfl, rfl, by decide,
   c1_stop_guarded_by_players envRunningPlayers sampleBot 7 2 ["alice", "bob"]
     rfl rfl (by decide)⟩

/-- Claim C3: any monitor tick observing the instance not running, players
online, or liveness unreachable leaves the idle streak at 0, regardless of
its prior value. -/
theorem c3_tick_resets_idle_streak (env : Env) (s : MinecraftServerBot)
    (h : obsState env ≠ "running" ∨ env.mcObserved = none ∨
         ∃ online names, env.mcObserved = some (online, names) ∧ 0 < online) :
    (monitor_players env s).1.consecutiveEmpty = 0 := by
  rcases hE : env.ec2Observed with _ | st
  · -- describe failed: state observed as "error", never "running"
    simp [monitor_players, ec2_state, getEc2_eq, hE]
    split <;> first | rfl | (dsimp only; omega)
  · by_cases hR : st = "running"
    · subst hR
      rcases h with h | hM | ⟨online, names, hM, hO⟩
      · exact absurd (by simp [obsState, hE]) h
      · simp [monitor_players, ec2_state, getEc2_eq, hE, hM, mc_status]
        split <;> first | rfl | (dsimp only; omega)
      · simp [monitor_players, ec2_state, getEc2_eq, hE, hM, mc_status, hO.ne']
        split <;> first | rfl | (dsimp only; omega)
    · simp [monitor_players, ec2_state, getEc2_eq, hE, hR]
      split <;> first | rfl | (dsimp only; omega)

/-- Witness for C3: a tick observing a stopped instance with prior streak 2
ends with streak 0. -/
theorem c3_tick_resets_idle_streak_witness :
    (obsState envStopped ≠ "running" ∨ envStopped.mcObserved = none ∨
      ∃ online names, envStopped.mcObserved = some (online, names) ∧ 0 < online) ∧
    (monitor_players envStopped
      { sampleBot with consecutiveEmpty := 2 }).1.consecutiveEmpty = 0 :=
  ⟨Or.inl (by decide),
   c3_tick_resets_idle_streak envStopped { sampleBot with consecutiveEmpty := 2 }
     (Or.inl (by decide))⟩

/-- Claim C2: under consecutive idle ticks (running, reachable, zero
players), with a recorded notification target and a succeeding provider
stop, the idle streak increases by exactly 1 per tick; on the tick where it
reaches the limit of 3, exactly one forced stop is issued — none before —
and the streak is 0 afterwards. -/
theorem c2_idle_streak_reaches_limit (env : Env) (s : MinecraftServerBot)
    (c : Nat) (names : List String)
    (hS : env.ec2Observed = some "running")
    (hM : env.mcObserved = some (0, names))
    (hOk : env.stopOk = true)
    (hC : s.lastCommandChan = some c)
    (h0 : s.consecutiveEmpty = 0) :
    (runTicks env s 1).1.consecutiveEmpty = 1 ∧
    countStops (runTicks env s 1).2 = 0 ∧
    (runTicks env s 2).1.consecutiveEmpty = 2 ∧
    countStops (runTicks env s 2).2 = 0 ∧
    (runTicks env s 3).1.consecutiveEmpty = 0 ∧
    countStops (runTicks env s 3).2 = 1 := by
  simp [runTicks, monitor_players, ec2_state, getEc2_eq, mc_status, cmd_stop,
        countStops, CONSECUTIVE_EMPTY_LIMIT, hS, hM, hOk, hC, h0]

/-- Witness for C2 at the sample bot in the idle running world. -/
theorem c2_idle_streak_reaches_limit_witness :
    envRunningIdle.ec2Observed = some "running" ∧
    envRunningIdle.mcObserved = some (0, []) ∧
    envRunningIdle.stopOk = true ∧
    sampleBot.lastCommandChan = some 42 ∧
    sampleBot.consecutiveEmpty = 0 ∧
    ((runTicks envRunningIdle sampleBot 1).1.consecutiveEmpty = 1 ∧
     countStops (runTicks envRunningIdle sampleBot 1).2 = 0 ∧
     (runTicks envRunningIdle sampleBot 2).1.consecutiveEmpty = 2 ∧
     countStops (runTicks envRunningIdle sampleBot 2).2 = 0 ∧
     (runTicks envRunningIdle sampleBot 3).1.consecutiveEmpty = 0 ∧
     countStops (runTicks envRunningIdle sampleBot 3).2 = 1) :=
  ⟨rfl, rfl, rfl, rfl, rfl,
   c2_idle_streak_reaches_limit envRunningIdle sampleBot 42 [] rfl rfl rfl rfl rfl⟩

/-- Claim C4 (code behavior at the failing input): both convergence waits —
`cmd_start`'s wait for `running` and `cmd_stop`'s wait for `stopped` — are
issued with no explicit bound (`WaiterConfig` absent at both call sites),
contradicting the spec's mandate of an explicit upper time bound with a
reported failure on expiry. -/
theorem c4_unbounded_convergence_waits :
    Effect.waitForRunning "i-alpha" none ∈ (cmd_start envStopped sampleBot 42).2 ∧
    Effect.waitForStopped "i-alpha" none ∈
      (cmd_stop envRunningIdle sampleBot (some 42) false).2 := by
  decide

/-- Claim C5 counterexample: with the instance running and liveness
unreachable for 3 consecutive ticks, no stop call fires at all (the claim
asserts exactly one fires on the 3rd tick) and the idle streak stays 0. -/
theorem c5_unreachable_counterexample :
    countStops (runTicks envRunningUnreachable sampleBot 3).2 = 0 ∧
    (runTicks envRunningUnreachable sampleBot 3).1.consecutiveEmpty = 0 := by
  decide

/-- Claim C5 as amended: starting from a running instance, 3 consecutive
ticks with liveness unreachable issue no stop call and leave the idle streak
at 0 — unreachable ticks reset the streak rather than accumulate it. -/
theorem c5_unreachable_ticks_never_stop (env : Env) (s : MinecraftServerBot)
    (hS : env.ec2Observed = some "running")
    (hM : env.mcObserved = none)
    (h0 : s.consecutiveEmpty = 0) :
    countStops (runTicks env s 3).2 = 0 ∧
    (runTicks env s 3).1.consecutiveEmpty = 0 := by
  simp [runTicks, monitor_players, ec2_state, getEc2_eq, mc_status, countStops,
        hS, hM, h0]

/-- Witness for the amended C5 at the fresh bot. -/
theorem c5_unreachable_ticks_never_stop_witness :
    envRunningUnreachable.ec2Observed = some "running" ∧
    envRunningUnreachable.mcObserved = none ∧
    freshBot.consecutiveEmpty = 0 ∧
    (countStops (runTicks envRunningUnreachable freshBot 3).2 = 0 ∧
     (runTicks envRunningUnreachable freshBot 3).1.consecutiveEmpty = 0) :=
  ⟨rfl, rfl, rfl,
   c5_unreachable_ticks_never_stop envRunningUnreachable freshBot rfl rfl rfl⟩

/-- Claim C6 counterexample: one `status_embed` call on a fresh bot changes
the cached last-observed state and lazily instantiates the provider client,
so the session state is not identical before and after. -/
theorem c6_status_counterexample :
    (status_embed envStopped sampleBot).1.lastEc2State ≠ sampleBot.lastEc2State ∧
    (status_embed envStopped sampleBot).1.ec2Client ≠ sampleBot.ec2Client := by
  decide

/-- Claim C6 as amended: `status_embed` leaves the active profile, the
configuration, the idle streak and the last notification target unchanged;
it caches the freshly observed run-state (when the describe succeeds) and
holds a provider client afterwards (the previous one, or a lazily created
one for the active profile). -/
theorem c6_status_frame (env : Env) (s : MinecraftServerBot) :
    (status_embed env s).1.current = s.current ∧
    (status_embed env s).1.cfg = s.cfg ∧
    (status_embed env s).1.consecutiveEmpty = s.consecutiveEmpty ∧
    (status_embed env s).1.lastCommandChan = s.lastCommandChan ∧
    (status_embed env s).1.ec2Client = some (s.ec2Client.getD (freshClient s)) ∧
    (status_embed env s).1.lastEc2State = env.ec2Observed.getD s.lastEc2State := by
  rw [status_embed_fst]
  rcases hE : env.ec2Observed with _ | st <;> simp [ec2_state, getEc2_eq, hE]

/-- Claim C7 counterexample: `cmd_start` on a running instance issues one
provider call (the state probe) rather than zero, and the session state is
not left unchanged on a fresh bot. -/
theorem c7_start_running_counterexample :
    countProviderCalls (cmd_start envRunningIdle sampleBot 42).2 ≠ 0 ∧
    (cmd_start envRunningIdle sampleBot 42).1 ≠ sampleBot := by
  decide

/-- Claim C7 as amended: `cmd_start` on a running instance signals
AlreadyRunning and performs exactly one provider call — the describe-state
probe, no start or stop — and mutates nothing except the cached
last-observed state and the lazily instantiated provider client. -/
theorem c7_start_running_notify_only (env : Env) (s : MinecraftServerBot)
    (c : Nat) (hS : env.ec2Observed = some "running") :
    cmd_start env s c =
      ({ s with ec2Client := some (s.ec2Client.getD (freshClient s)),
                lastEc2State := "running" },
       [.describeInstances s.current.instance_id,
        .notify c (.alreadyRunning s.current.name)]) := by
  simp [cmd_start, ec2_state, getEc2_eq, hS]

/-- Witness for the amended C7 at the sample bot. -/
theorem c7_start_running_notify_only_witness :
    envRunningIdle.ec2Observed = some "running" ∧
    cmd_start envRunningIdle sampleBot 42 =
      ({ sampleBot with
          ec2Client := some (sampleBot.ec2Client.getD (freshClient sampleBot)),
          lastEc2State := "running" },
       [.describeInstances sampleBot.current.instance_id,
        .notify 42 (.alreadyRunning sampleBot.current.name)]) :=
  ⟨rfl, c7_start_running_notify_only envRunningIdle sampleBot 42 rfl⟩

/-- Claim C8 counterexample: `cmd_mount` while the instance is running, on a
bot whose client is not yet instantiated, changes the provider client field
(the precondition probe lazily creates it), so the client is not unchanged. -/
theorem c8_mount_counterexample :
    (cmd_mount envRunningIdle sampleBot 42 "beta").1.ec2Client ≠
      sampleBot.ec2Client := by
  decide

/-- Claim C8 as amended: `cmd_mount` while running fails with
CannotMountWhileRunning, and for an unknown name fails with UnknownProfile
carrying the list of valid names; in both failure cases the active profile
and the idle streak are unchanged, and the provider client is not rebound —
afterwards it is the previous client, or a lazily created one for the
unchanged active profile. -/
theorem c8_mount_failure_cases (env : Env) (s : MinecraftServerBot) (c : Nat)
    (name : String)
    (h : obsState env = "running" ∨ lookupServer s.cfg.servers name = none) :
    (cmd_mount env s c name).1.current = s.current ∧
    (cmd_mount env s c name).1.consecutiveEmpty = s.consecutiveEmpty ∧
    (cmd_mount env s c name).1.ec2Client =
      some (s.ec2Client.getD (freshClient s)) ∧
    (if obsState env = "running" then
        Effect.notify c (.cannotMountWhileRunning s.current.name) ∈
          (cmd_mount env s c name).2
      else
        Effect.notify c (.invalidServer name (s.cfg.servers.map Prod.fst)) ∈
          (cmd_mount env s c name).2) := by
  by_cases hR : obsState env = "running"
  · have hE : env.ec2Observed = some "running" := by
      rcases hEE : env.ec2Observed with _ | st
      · simp [obsState, hEE] at hR
      · simp [obsState, hEE] at hR
        simp [hR]
    simp [cmd_mount, ec2_state, getEc2_eq, hE, hR]
  · have hname : lookupServer s.cfg.servers name = none := h.resolve_left hR
    rcases hEE : env.ec2Observed with _ | st
    · simp [cmd_mount, ec2_state, getEc2_eq, obsState, hEE, hname]
    · have hst : st ≠ "running" := by
        intro hh
        exact hR (by simp [obsState, hEE, hh])
      simp [cmd_mount, ec2_state, getEc2_eq, obsState, hEE, hname, hst]

/-- Witness for the amended C8: mounting the unknown name "gamma" with the
instance stopped. -/
theorem c8_mount_failure_cases_witness :
    (obsState envStopped = "running" ∨
      lookupServer sampleBot.cfg.servers "gamma" = none) ∧
    ((cmd_mount envStopped sampleBot 42 "gamma").1.current = sampleBot.current ∧
     (cmd_mount envStopped sampleBot 42 "gamma").1.consecutiveEmpty =
       sampleBot.consecutiveEmpty ∧
     (cmd_mount envStopped sampleBot 42 "gamma").1.ec2Client =
       some (sampleBot.ec2Client.getD (freshClient sampleBot)) ∧
     (if obsState envStopped = "running" then
        Effect.notify 42 (.cannotMountWhileRunning sampleBot.current.name) ∈
          (cmd_mount envStopped sampleBot 42 "gamma").2
      else
        Effect.notify 42
            (.invalidServer "gamma" (sampleBot.cfg.servers.map Prod.fst)) ∈
          (cmd_mount envStopped sampleBot 42 "gamma").2)) :=
  ⟨Or.inr (by decide),
   c8_mount_failure_cases envStopped sampleBot 42 "gamma" (Or.inr (by decide))⟩

/-- State of the bot after a successful `cmd_mount` to a different, known
profile while not running: profile swapped, counter 0, client freshly
instantiated for the new profile's region by the courtesy status refresh,
cached state re-observed (or left blank when the describe fails). -/
theorem cmd_mount_success_state (env : Env) (s : MinecraftServerBot) (c : Nat)
    (a : String) (target : ServerCfg)
    (hR : obsState env ≠ "running")
    (hL : lookupServer s.cfg.servers a = some target)
    (hNe : a ≠ s.current.name) :
    (cmd_mount env s c a).1 =
      { cfg := s.cfg, current := target,
        ec2Client := some { region := target.region, aws_key := s.cfg.aws_key,
                            aws_secret := s.cfg.aws_secret },
        consecutiveEmpty := 0, lastCommandChan := s.lastCommandChan,
        lastEc2State := env.ec2Observed.getD "" } := by
  rcases hE : env.ec2Observed with _ | st
  · simp [cmd_mount, cmd_status, status_embed_fst, ec2_state, getEc2_eq,
          freshClient, hE, hL, hNe]
  · have hst : st ≠ "running" := by
      intro hh
      exact hR (by simp [obsState, hE, hh])
    simp [cmd_mount, cmd_status, status_embed_fst, ec2_state, getEc2_eq,
          freshClient, hE, hL, hNe, hst]

/-- Claim C9: `mount(A)` followed by `mount(A)` again (instance not running
during either call): the second call signals AlreadyActive and leaves the
provider client, the idle streak and the active profile exactly as the first
mount left them. -/
theorem c9_mount_round_trip (env1 env2 : Env) (s : MinecraftServerBot)
    (c : Nat) (a : String) (target : ServerCfg)
    (hL : lookupServer s.cfg.servers a = some target)
    (hName : target.name = a)
    (hNe : a ≠ s.current.name)
    (h1 : obsState env1 ≠ "running")
    (h2 : obsState env2 ≠ "running") :
    (cmd_mount env2 (cmd_mount env1 s c a).1 c a).1.ec2Client =
      (cmd_mount env1 s c a).1.ec2Client ∧
    (cmd_mount env2 (cmd_mount env1 s c a).1 c a).1.consecutiveEmpty =
      (cmd_mount env1 s c a).1.consecutiveEmpty ∧
    (cmd_mount env2 (cmd_mount env1 s c a).1 c a).1.current =
      (cmd_mount env1 s c a).1.current ∧
    Effect.notify c (.alreadyActive a) ∈
      (cmd_mount env2 (cmd_mount env1 s c a).1 c a).2 := by
  rw [cmd_mount_success_state env1 s c a target h1 hL hNe]
  rcases hE2 : env2.ec2Observed with _ | st
  · simp [cmd_mount, ec2_state, getEc2_eq, hE2, hL, hName]
  · have hst : st ≠ "running" := by
      intro hh
      exact h2 (by simp [obsState, hE2, hh])
    simp [cmd_mount, ec2_state, getEc2_eq, hE2, hL, hName, hst]

/-- Witness for C9: mounting beta twice from the sample bot while stopped. -/
theorem c9_mount_round_trip_witness :
    lookupServer sampleBot.cfg.servers "beta" = some betaCfg ∧
    betaCfg.name = "beta" ∧
    "beta" ≠ sampleBot.current.name ∧
    obsState envStopped ≠ "running" ∧
    ((cmd_mount envStopped (cmd_mount envStopped sampleBot 5 "beta").1 5
        "beta").1.ec2Client = (cmd_mount envStopped sampleBot 5 "beta").1.ec2Client ∧
     (cmd_mount envStopped (cmd_mount envStopped sampleBot 5 "beta").1 5
        "beta").1.consecutiveEmpty =
       (cmd_mount envStopped sampleBot 5 "beta").1.consecutiveEmpty ∧
     (cmd_mount envStopped (cmd_mount envStopped sampleBot 5 "beta").1 5
        "beta").1.current = (cmd_mount envStopped sampleBot 5 "beta").1.current ∧
     Effect.notify 5 (.alreadyActive "beta") ∈
       (cmd_mount envStopped (cmd_mount envStopped sampleBot 5 "beta").1 5
         "beta").2) :=
  ⟨by decide, rfl, by decide, by decide,
   c9_mount_round_trip envStopped envStopped sampleBot 5 "beta" betaCfg
     (by decide) rfl (by decide) (by decide) (by decide)⟩

end ServerStatus
